import Mathlib

/-!
# Verification of the AI news aggregator pipeline

Shallow embedding, in Lean 4, of the ingestion–curation–delivery pipeline
(`src/collectors/*.py`, `src/processors/*.py`, `src/utils/output_manager.py`).
External effects (HTTP fetches, the summarization API, the system clock,
`strptime`) are passed in as explicit oracle parameters; Python exceptions
raised by an external call are modelled as `Except`/`Option` error values.
Python dicts produced by the collectors always carry the same keys, so the
record shape is modelled as a structure; only the summary key (`summary_ja`),
which is absent until the Summarizer runs, is an `Option`.
-/

namespace AINews

/-- The normalized record shape produced by every collector and consumed by
the filter, the summarizer and the output sink.  Fields mirror the dict keys
set in `hacker_news.py` / `product_hunt.py` / `twitter.py`; `native_id`
models the per-source id key (`hn_id` / `ph_id` / `twitter_id`) and
`summary` models the `summary_ja` key added by `Summarizer.summarize`
(`none` = key absent). -/
structure NewsRecord where
  title : String
  url : String
  content : String
  source : String
  score : Int
  timestamp : Int
  comments_count : Int
  native_id : Option Int
  summary : Option String
deriving Repr, DecidableEq

/-! ## Relevance filter (`src/processors/ai_filter.py`)

`AIContentFilter.__init__` compiles, for each keyword, the regex
`\b` + `re.escape(keyword.lower())` + `\b` with `re.IGNORECASE`, and
`filter` searches each pattern in `(title + " " + content).lower()`.
Since every keyword is a literal (escaping makes its characters match
themselves) the search succeeds exactly when the literal occurs at some
position with a `\b` word boundary at both ends.  `\b` holds at a gap iff
exactly one of the two surrounding characters is a word character (string
edges count as non-word).  Python's Unicode `\w` is modelled restricted to
the alphabets that occur in this code base: ASCII alphanumerics, `_`,
kana (U+3040–U+30FF) and CJK ideographs (U+4E00–U+9FFF) — all of which are
word characters for Python `re`.  Both the text and the keywords are
lower-cased (`.lower()`), so `IGNORECASE` adds nothing. -/

/-- Word character for the `\b` boundary semantics of Python `re` (Unicode
mode), restricted to the alphabets occurring in the repository. -/
def isWordChar (c : Char) : Bool :=
  c.isAlphanum || c = '_' ||
  (0x3040 ≤ c.toNat && c.toNat ≤ 0x30FF) ||
  (0x4E00 ≤ c.toNat && c.toNat ≤ 0x9FFF)

/-- Whether position `i` of `t` holds a word character (out of range = no). -/
def wordAt (t : List Char) (i : Nat) : Bool :=
  match t[i]? with
  | some c => isWordChar c
  | none => false

/-- Python `\b` at the gap before position `i`: exactly one of the character
at `i - 1` (absent when `i = 0`) and the character at `i` is a word
character. -/
def boundaryAt (t : List Char) (i : Nat) : Bool :=
  (if i = 0 then false else wordAt t (i - 1)) != wordAt t i

/-- The literal `k` occurs in `t` starting at position `i`. -/
def matchAt (t k : List Char) (i : Nat) : Bool :=
  decide ((t.drop i).take k.length = k)

/-- Model: `pattern.search(text)` for the compiled pattern `\b<literal k>\b`:
some occurrence of `k` has a word boundary at both ends. -/
def kwSearch (k t : List Char) : Bool :=
  (List.range (t.length + 1)).any fun i =>
    matchAt t k i && boundaryAt t i && boundaryAt t (i + k.length)

/-- Model: `AIContentFilter.AI_KEYWORDS`, verbatim from `ai_filter.py`. -/
def AI_KEYWORDS : List String :=
  [ "artificial intelligence", "ai ", "ai,", "ai.", "ai-", "a.i.",
    "machine learning", "ml ", "ml,", "ml.", "deep learning", "dl ", "dl,", "dl.",
    "neural network", "neural nets", "algorithm", "computer vision",
    "gpt", "chatgpt", "gpt-4", "gpt-3", "llm", "large language model",
    "claude", "gemini", "midjourney", "dalle", "dall-e", "stable diffusion",
    "openai", "anthropic", "meta ai", "google bard", "mistral", "llama",
    "prompt engineer", "fine-tun", "training", "dataset",
    "transformer", "diffusion model", "gan ", "gans", "generative",
    "nlp", "natural language processing", "computer vision",
    "semantic", "embedding", "vector", "tensor",
    "language model", "foundation model",
    "ai agent", "ai assistant", "autonomous", "automation",
    "recommendation system", "personalization",
    "face recognition", "speech recognition", "voice assistant",
    "conv", "transformers", "attention mechanism", "transfer learning",
    "reinforcement learning", "self-supervised", "unsupervised",
    "multimodal", "semantic search", "vector database",
    "人工知能", "ai", "エーアイ", "機械学習", "ディープラーニング",
    "ニューラルネットワーク", "大規模言語モデル", "生成ai", "生成モデル" ]

/-- Python `str.lower()`; `Char.toLower` lower-cases ASCII letters and leaves
the Japanese characters unchanged, which coincides with Python on the
alphabets occurring in this code base. -/
def lowerChars (s : String) : List Char :=
  s.toList.map Char.toLower

/-- Model: `f"{item.get('title','')} {item.get('content','')}".lower()`. -/
def combinedText (r : NewsRecord) : List Char :=
  lowerChars (r.title ++ " " ++ r.content)

/-- Model: `any(pattern.search(combined_text) for pattern in self.keyword_patterns)`,
with the keyword list `kws`. -/
def isAiRelatedWith (kws : List String) (text : List Char) : Bool :=
  kws.any fun kw => kwSearch (lowerChars kw) text

/-- The keyword test exactly as compiled in `AIContentFilter.__init__`. -/
def isAiRelated (text : List Char) : Bool :=
  isAiRelatedWith AI_KEYWORDS text

/-- The per-record predicate of `AIContentFilter.filter`: the record survives
the `score` floor check and matches at least one keyword pattern. -/
def passesFilter (min_score : Int) (r : NewsRecord) : Bool :=
  !(r.score < min_score) && isAiRelated (combinedText r)

/-- The accumulation loop of `AIContentFilter.filter`, step for step:
skip when the score is below the floor, append when a pattern matches. -/
def aiFilterLoop (min_score : Int) : List NewsRecord → List NewsRecord
  | [] => []
  | item :: rest =>
    if item.score < min_score then aiFilterLoop min_score rest
    else if isAiRelated (combinedText item) then
      item :: aiFilterLoop min_score rest
    else aiFilterLoop min_score rest

/-- Model: `AIContentFilter.filter` (the constructor default is `min_score = 5`). -/
def aiFilter (min_score : Int) (news_items : List NewsRecord) : List NewsRecord :=
  aiFilterLoop min_score news_items

/-! ## Summarizer (`src/processors/summarizer.py`)

`Summarizer.summarize` walks the input with `enumerate`; for each item it
calls the OpenAI chat API and appends `item.copy()` with key `summary_ja`
set to `response.choices[0].message.content.strip()`; any exception in the
try block (network, quota, malformed response) makes it append the original
item unchanged.  The whole external call for item `i` is the oracle
`callApi i : Option String` (`none` = the call raised, `some content` = the
returned message content before `.strip()`).  An unset API key makes the
whole stage return the input list unchanged. -/

/-- Python `str.strip()`: drop leading and trailing whitespace. -/
def stripChars (l : List Char) : List Char :=
  ((l.dropWhile Char.isWhitespace).reverse.dropWhile Char.isWhitespace).reverse

/-- Model: `content.strip()` as a `String` function. -/
def pyStrip (s : String) : String :=
  String.mk (stripChars s.toList)

/-- The `for idx, item in enumerate(news_items)` loop of
`Summarizer.summarize`, carrying the running index `i`. -/
def summarizeLoop (callApi : Nat → Option String) : Nat → List NewsRecord → List NewsRecord
  | _, [] => []
  | i, item :: rest =>
    (match callApi i with
     | some content => { item with summary := some (pyStrip content) }
     | none => item) :: summarizeLoop callApi (i + 1) rest

/-- Model: `Summarizer.summarize`: no-op returning the input when the API key is
empty, otherwise the per-item loop starting at index 0. -/
def summarize (api_key : String) (callApi : Nat → Option String)
    (news_items : List NewsRecord) : List NewsRecord :=
  if api_key = "" then news_items else summarizeLoop callApi 0 news_items

/-! ## Output sink (`src/utils/output_manager.py`)

`OutputManager.save` returns `""` for an empty list (warning logged),
otherwise writes four files named `ai_news_<timestamp>.{json,csv,txt,html}`
under the output directory and returns the JSON path.  A written file is
modelled as its path paired with structured content; the content keeps the
per-record pieces as a list so that the number of records a file contains is
its length.  Clock values (`datetime.now().strftime(...)` at the various
format strings) and `datetime.fromtimestamp` are environment parameters. -/

/-- Log levels of the `logging` calls that the claims distinguish. -/
inductive LogLevel where
  | info
  | warning
  | error
deriving Repr, DecidableEq

/-- The clock-dependent inputs of one `save` call. -/
structure OutputEnv where
  /-- constructor argument `output_dir` (default `"output"`). -/
  output_dir : String
  /-- Model: `datetime.now().strftime("%Y%m%d_%H%M%S")`, computed once in `save`. -/
  timestamp : String
  /-- Model: `datetime.now().strftime('%Y-%m-%d %H:%M:%S')` (txt header, html body). -/
  nowDateTime : String
  /-- Model: `datetime.now().strftime('%Y-%m-%d')` (html `<title>`). -/
  nowDate : String
  /-- Model: `datetime.fromtimestamp(ts).strftime('%Y-%m-%d %H:%M')`. -/
  fmtTs : Int → String

/-- Model: `os.path.join(self.output_dir, f"ai_news_{timestamp}.{ext}")`. -/
def savePath (dir ts ext : String) : String :=
  dir ++ "/ai_news_" ++ ts ++ "." ++ ext

/-- Contents of one written file.  The JSON dump is the full record list;
the CSV is its header columns plus one cell row per record; the txt file is
its header plus one numbered block per record; the html file is its head
matter plus one `news-item` div per record. -/
inductive FileContent where
  | jsonItems (items : List NewsRecord)
  | csvTable (cols : List String) (rows : List (List String))
  | textDigest (header : String) (blocks : List String)
  | htmlReport (head : String) (divs : List String)
deriving Repr

/-- How many records a written file contains. -/
def recordCount : FileContent → Nat
  | .jsonItems items => items.length
  | .csvTable _ rows => rows.length
  | .textDigest _ blocks => blocks.length
  | .htmlReport _ divs => divs.length

/-- The column subset of `_save_csv`: of
`['title','url','source','score','timestamp','summary_ja']` those present in
`pd.DataFrame(news_items).columns`.  Every record dict carries the first
five keys; `summary_ja` is a column iff some record has it. -/
def csvColumns (rs : List NewsRecord) : List String :=
  ["title", "url", "source", "score", "timestamp"] ++
    (if rs.any (·.summary.isSome) then ["summary_ja"] else [])

/-- One CSV data row (missing `summary_ja` cells render empty). -/
def csvRow (hasSummary : Bool) (r : NewsRecord) : List String :=
  [r.title, r.url, r.source, toString r.score, toString r.timestamp] ++
    (if hasSummary then [r.summary.getD ""] else [])

/-- The txt header written before the blocks. -/
def textHeader (nowDateTime : String) : String :=
  "AI関連ニュース要約 - " ++ nowDateTime ++ "\n" ++
    String.mk (List.replicate 80 '=') ++ "\n\n"

/-- One numbered block of `_save_text` (dict keys `title`, `source`,
`score`, `url` are always present, so their `.get` defaults never fire;
`summary_ja` defaults to `'要約なし'`). -/
def textBlock (idx : Nat) (r : NewsRecord) : String :=
  "[" ++ toString idx ++ "] " ++ r.title ++ "\n" ++
  "ソース: " ++ r.source ++ " (スコア: " ++ toString r.score ++ ")\n" ++
  "URL: " ++ r.url ++ "\n" ++
  "\n要約:\n" ++ r.summary.getD "要約なし" ++ "\n" ++
  "\n" ++ String.mk (List.replicate 40 '-') ++ "\n\n"

/-- The `for idx, item in enumerate(news_items, 1)` loop of `_save_text`. -/
def textBlocksFrom (idx : Nat) : List NewsRecord → List String
  | [] => []
  | r :: rest => textBlock idx r :: textBlocksFrom (idx + 1) rest

/-- Model: `source.lower().replace(' ', '')` for the html css class. -/
def htmlSourceClass (source : String) : String :=
  String.mk ((lowerChars source).filter (fun c => !(c = ' ')))

/-- The head matter of the html report (doctype, css, page header with the
generation timestamps); css braces written as escapes. -/
def htmlHead (nowDate nowDateTime : String) : String :=
  "<!DOCTYPE html>\n<html lang=\"ja\">\n<head>\n<meta charset=\"UTF-8\">\n" ++
  "<title>AI関連ニュース要約 - " ++ nowDate ++ "</title>\n" ++
  "<style>\nbody \x7b font-family: Helvetica, Arial, sans-serif; \x7d\n" ++
  ".news-item \x7b border: 1px solid #ddd; border-radius: 8px; \x7d\n</style>\n" ++
  "</head>\n<body>\n<h1>AI関連ニュース要約</h1>\n<p>生成日時: " ++
  nowDateTime ++ "</p>\n<div class=\"news-container\">\n"

/-- One `news-item` div of `_save_html`: the publication date is formatted
from the Unix timestamp when it is non-zero, else the `'日時不明'`
placeholder. -/
def htmlDiv (fmtTs : Int → String) (r : NewsRecord) : String :=
  let dateStr := if r.timestamp = 0 then "日時不明" else fmtTs r.timestamp
  "<div class=\"news-item\">\n<h2 class=\"news-title\">" ++ r.title ++
  "</h2>\n<div class=\"news-meta\">\n<span class=\"source-label source-" ++
  htmlSourceClass r.source ++ "\">" ++ r.source ++
  "</span>\n<span class=\"news-date\">" ++ dateStr ++
  "</span>\n<span class=\"news-score\">スコア: " ++ toString r.score ++
  "</span>\n</div>\n<div class=\"news-summary\">\n<p>" ++
  r.summary.getD "要約なし" ++ "</p>\n</div>\n<div class=\"news-url\">\n<a href=\"" ++
  r.url ++ "\" target=\"_blank\">元記事を読む</a>\n</div>\n</div>\n"

/-- Model: `OutputManager._save_json`. -/
def saveJsonFile (env : OutputEnv) (items : List NewsRecord) : String × FileContent :=
  (savePath env.output_dir env.timestamp "json", .jsonItems items)

/-- Model: `OutputManager._save_csv`. -/
def saveCsvFile (env : OutputEnv) (items : List NewsRecord) : String × FileContent :=
  (savePath env.output_dir env.timestamp "csv",
   .csvTable (csvColumns items) (items.map (csvRow (items.any (·.summary.isSome)))))

/-- Model: `OutputManager._save_text`. -/
def saveTextFile (env : OutputEnv) (items : List NewsRecord) : String × FileContent :=
  (savePath env.output_dir env.timestamp "txt",
   .textDigest (textHeader env.nowDateTime) (textBlocksFrom 1 items))

/-- Model: `OutputManager._save_html`. -/
def saveHtmlFile (env : OutputEnv) (items : List NewsRecord) : String × FileContent :=
  (savePath env.output_dir env.timestamp "html",
   .htmlReport (htmlHead env.nowDate env.nowDateTime) (items.map (htmlDiv env.fmtTs)))

/-- Model: `OutputManager.save`: returned path, files written (path and content,
in the order of the `paths` dict literal), and log messages emitted. -/
def save (env : OutputEnv) (news_items : List NewsRecord) :
    String × List (String × FileContent) × List (LogLevel × String) :=
  if news_items.isEmpty then
    ("", [], [(.warning, "保存するニュースアイテムがありません")])
  else
    let j := saveJsonFile env news_items
    let c := saveCsvFile env news_items
    let t := saveTextFile env news_items
    let h := saveHtmlFile env news_items
    (j.1, [j, c, t, h],
     [(.info, "ニュース要約結果を以下のファイルに保存しました: " ++
        String.intercalate ", " [j.1, c.1, t.1, h.1])])

/-! ## Forum-ranking collector (`src/collectors/hacker_news.py`)

`HackerNewsCollector.collect` fetches the top and new story id lists (a
failure of either is caught by the outer `except`, returning `[]`),
deduplicates them with `dict.fromkeys` (first-seen order), truncates to
`max_items`, then fetches each story's detail inside a per-item
`try/except`: a failing fetch only skips that story.  The detail fetch for
one id is the oracle `fetchItem id` (`.error` = the request raised,
`.ok none` = the endpoint returned JSON `null`).  A fetched item's dict keys
are modelled as `Option` fields (`none` = key absent). -/

/-- One parsed item of the forum-ranking provider. -/
structure HNItem where
  title : Option String
  url : Option String
  /-- the `text` key (body snippet). -/
  text : Option String
  /-- the `type` key; items are accepted only when it equals `"story"`. -/
  itemType : Option String
  score : Option Int
  time : Option Int
  descendants : Option Int
deriving Repr, DecidableEq

/-- The body of the per-item `try`: the fetched story contributes a record
iff the fetch succeeded, the payload is non-null, has a `url` key and has
type `"story"`. -/
def hnProcess (fetchItem : Int → Except Unit (Option HNItem)) (story_id : Int) :
    Option NewsRecord :=
  match fetchItem story_id with
  | .error _ => none
  | .ok none => none
  | .ok (some story) =>
    if story.url.isSome && story.itemType == some "story" then
      some { title := story.title.getD "", url := story.url.getD "",
             content := story.text.getD "", source := "Hacker News",
             score := story.score.getD 0, timestamp := story.time.getD 0,
             comments_count := story.descendants.getD 0,
             native_id := some story_id, summary := none }
    else none

/-- The `for story_id in story_ids` loop with its per-item `try/except`. -/
def hnLoop (fetchItem : Int → Except Unit (Option HNItem)) : List Int → List NewsRecord
  | [] => []
  | story_id :: rest =>
    match hnProcess fetchItem story_id with
    | some r => r :: hnLoop fetchItem rest
    | none => hnLoop fetchItem rest

/-- Model: `list(dict.fromkeys(...))`: keep the first occurrence of each id. -/
def dedupKeysAux : List Int → List Int → List Int
  | [], _ => []
  | x :: rest, seen =>
    if x ∈ seen then dedupKeysAux rest seen
    else x :: dedupKeysAux rest (x :: seen)

/-- Model: `HackerNewsCollector.collect`. -/
def hnCollect (fetchTop fetchNew : Except Unit (List Int))
    (fetchItem : Int → Except Unit (Option HNItem)) (max_items : Nat) :
    List NewsRecord :=
  match fetchTop with
  | .error _ => []
  | .ok top_ids =>
    match fetchNew with
    | .error _ => []
    | .ok new_ids =>
      hnLoop fetchItem ((dedupKeysAux (top_ids ++ new_ids) []).take max_items)

/-! ## Product-launch collector (`src/collectors/product_hunt.py`)

`ProductHuntCollector.collect` is a hard no-op without an API key.  It
gathers the per-day post lists for `day_offset in range(days_back)` (most
recent first) with **no** inner `try/except`, then formats every post —
`datetime.strptime(post.get('created_at',''), ...)` can raise on a malformed
date, and any failure in either loop reaches the single outer `except`,
which discards everything collected so far and returns `[]`.  The per-day
request is the oracle `getPosts day_offset`; `strptime(...).timestamp()` is
the oracle `parseCreatedAt` (`.error` = `strptime` raised). -/

/-- One post of the product-launch provider (`Option` = key absent). -/
structure PHPost where
  name : Option String
  discussion_url : Option String
  tagline : Option String
  votes_count : Option Int
  created_at : Option String
  comments_count : Option Int
  id : Option Int
deriving Repr, DecidableEq

/-- The `for day_offset in range(self.days_back)` gathering loop, started at
`offset` with `remaining` days to go; the first failing day aborts. -/
def phGatherFrom (getPosts : Nat → Except Unit (List PHPost)) (offset : Nat) :
    Nat → Except Unit (List PHPost)
  | 0 => .ok []
  | remaining + 1 =>
    match getPosts offset with
    | .error e => .error e
    | .ok dayPosts =>
      match phGatherFrom getPosts (offset + 1) remaining with
      | .error e => .error e
      | .ok restPosts => .ok (dayPosts ++ restPosts)

/-- Formatting of one post in the `for post in posts` loop; fails iff
`strptime` fails on the post's `created_at`. -/
def phBuildItem (parseCreatedAt : String → Except Unit Int) (post : PHPost) :
    Except Unit NewsRecord :=
  match parseCreatedAt (post.created_at.getD "") with
  | .error e => .error e
  | .ok ts =>
    .ok { title := post.name.getD "", url := post.discussion_url.getD "",
          content := post.tagline.getD "", source := "Product Hunt",
          score := post.votes_count.getD 0, timestamp := ts,
          comments_count := post.comments_count.getD 0,
          native_id := post.id, summary := none }

/-- Model: `ProductHuntCollector.collect`: a failure anywhere after the key check
is caught only by the outer `except`, yielding `[]`. -/
def phCollect (api_key : String) (days_back : Nat)
    (getPosts : Nat → Except Unit (List PHPost))
    (parseCreatedAt : String → Except Unit Int) : List NewsRecord :=
  if api_key = "" then []
  else
    match phGatherFrom getPosts 0 days_back with
    | .error _ => []
    | .ok posts =>
      match posts.mapM (phBuildItem parseCreatedAt) with
      | .error _ => []
      | .ok news_items => news_items

/-! ## Social-stream collector (`src/collectors/twitter.py`)

`TwitterCollector.collect` is a hard no-op unless all four credentials are
set; `verify_credentials()` failing is caught by the outer `except` and
yields `[]`.  It then folds over the fixed keyword list: each keyword's
search runs in its own `try/except` (a failing search keeps the accumulator
unchanged), each returned tweet is appended unless its id was already
accumulated.  Finally the accumulated list is deduplicated by extracted
`url`, keeping first-seen tweets in order.  The search for one term is the
oracle `search kw`. -/

/-- One `tweet.entities['urls']` element. -/
structure UrlEntity where
  /-- the shortened `url` key (always present). -/
  url : String
  /-- the `expanded_url` key, when present. -/
  expanded_url : Option String
deriving Repr, DecidableEq

/-- Model: `tweet.entities` (`none` on a field = key absent). -/
structure TweetEntities where
  urls : Option (List UrlEntity)
  user_mentions : Option (List String)
deriving Repr, DecidableEq

/-- One tweet as used by the collector (`entities = none` models a tweet
object without an `entities` attribute; `full_text = none` one without the
`full_text` attribute).  `created_at` is already the epoch value of
`int(tweet.created_at.timestamp())`. -/
structure Tweet where
  id : Int
  text : String
  full_text : Option String
  favorite_count : Int
  retweet_count : Int
  created_at : Int
  user_screen_name : String
  entities : Option TweetEntities
deriving Repr, DecidableEq

/-- The dict built for one accepted tweet. -/
structure TweetInfo where
  title : String
  url : String
  content : String
  source : String
  score : Int
  timestamp : Int
  comments_count : Int
  twitter_id : Int
  username : String
  urls : List String
deriving Repr, DecidableEq

/-- Model: `TwitterCollector.AI_KEYWORDS`, verbatim from `twitter.py`. -/
def TW_AI_KEYWORDS : List String :=
  [ "artificial intelligence", "#AI", "#artificialintelligence",
    "machine learning", "#ML", "#machinelearning",
    "deep learning", "#DL", "#deeplearning",
    "LLM", "大規模言語モデル", "#LLM",
    "GPT", "ChatGPT", "#GPT", "#ChatGPT",
    "Anthropic", "Claude", "#Claude",
    "Gemini", "#Gemini",
    "AI開発", "AIモデル", "#AI開発" ]

/-- Model: `tweet.full_text if hasattr(tweet, 'full_text') else tweet.text`. -/
def tweetRawText (t : Tweet) : String :=
  t.full_text.getD t.text

/-- Python `text.replace(pat, '')` over character lists, fuel-bounded by the
text length so the kernel can evaluate it (each step consumes at least one
character since the patterns replaced are non-empty). -/
def replaceAux (pat : List Char) : Nat → List Char → List Char
  | 0, _ => []
  | fuel + 1, l =>
    match l with
    | [] => []
    | c :: rest =>
      if l.take pat.length = pat then replaceAux pat fuel (l.drop pat.length)
      else c :: replaceAux pat fuel rest

/-- Model: `text.replace(pat, '')` (an empty pattern with an empty replacement is
the identity in Python). -/
def pyReplace (pat l : List Char) : List Char :=
  if pat = [] then l else replaceAux pat l.length l

/-- Python `text.split()`: split on whitespace runs, dropping empties;
`cur` is the token being read, reversed. -/
def splitWsAux (cur : List Char) : List Char → List (List Char)
  | [] => if cur = [] then [] else [cur.reverse]
  | c :: rest =>
    if c.isWhitespace then
      if cur = [] then splitWsAux [] rest
      else cur.reverse :: splitWsAux [] rest
    else splitWsAux (c :: cur) rest

/-- Model: `' '.join(text.split())`: collapse whitespace runs. -/
def collapseWs (l : List Char) : List Char :=
  List.intercalate [' '] (splitWsAux [] l)

/-- Model: `TwitterCollector._get_title_from_tweet`: strip link tokens and
`@mention` tokens, collapse whitespace, truncate to 100 characters with an
`'...'` marker. -/
def tweetTitle (t : Tweet) : String :=
  let text0 := (tweetRawText t).toList
  let text1 :=
    match t.entities with
    | none => text0
    | some ents =>
      let afterUrls :=
        (ents.urls.getD []).foldl (fun acc u => pyReplace u.url.toList acc) text0
      (ents.user_mentions.getD []).foldl
        (fun acc m => pyReplace ("@" ++ m).toList acc) afterUrls
  let text2 := collapseWs text1
  String.mk (if text2.length > 100 then text2.take 100 ++ "...".toList else text2)

/-- The `urls` list extracted in `collect`: each entity's `expanded_url`
when that key is present. -/
def tweetUrls (t : Tweet) : List String :=
  match t.entities with
  | none => []
  | some ents => (ents.urls.getD []).filterMap (·.expanded_url)

/-- The `tweet_info` dict built for one tweet: first extracted url, or the
synthesized permalink when there is none. -/
def mkTweetInfo (t : Tweet) : TweetInfo :=
  let urls := tweetUrls t
  { title := tweetTitle t
    url := urls.head?.getD ("https://twitter.com/i/web/status/" ++ toString t.id)
    content := tweetRawText t
    source := "Twitter"
    score := t.favorite_count
    timestamp := t.created_at
    comments_count := t.retweet_count
    twitter_id := t.id
    username := t.user_screen_name
    urls := urls }

/-- The `for tweet in tweets` body: skip when the id was already
accumulated (`tweet.id not in [t.get('twitter_id') ...]`), else append. -/
def twAddTweet (acc : List TweetInfo) (t : Tweet) : List TweetInfo :=
  if acc.any (fun ti => ti.twitter_id == t.id) then acc
  else acc ++ [mkTweetInfo t]

/-- One iteration of the keyword loop with its per-keyword `try/except`:
a failing search leaves the accumulator unchanged. -/
def twKeywordStep (search : String → Except Unit (List Tweet))
    (acc : List TweetInfo) (kw : String) : List TweetInfo :=
  match search kw with
  | .error _ => acc
  | .ok tweets => tweets.foldl twAddTweet acc

/-- The final dedup pass of `collect`, with the `seen_urls` set modelled as
the list of urls added so far. -/
def dedupByUrlAux : List TweetInfo → List String → List TweetInfo
  | [], _ => []
  | t :: rest, seen =>
    if t.url ∈ seen then dedupByUrlAux rest seen
    else t :: dedupByUrlAux rest (t.url :: seen)

/-- The `unique_tweets` / `seen_urls` loop: one tweet per distinct url. -/
def dedupByUrl (all_tweets : List TweetInfo) : List TweetInfo :=
  dedupByUrlAux all_tweets []

/-- Model: `TwitterCollector.collect`. -/
def twCollect (api_key api_secret access_token access_secret : String)
    (verify : Except Unit Unit) (search : String → Except Unit (List Tweet)) :
    List TweetInfo :=
  if api_key = "" || api_secret = "" || access_token = "" || access_secret = "" then []
  else
    match verify with
    | .error _ => []
    | .ok _ => dedupByUrl (TW_AI_KEYWORDS.foldl (twKeywordStep search) [])

/-! ## Concrete fixtures used by witnesses and counterexamples -/

/-- A minimal record whose text matches the `gpt` pattern. -/
def recGpt (s : Int) : NewsRecord :=
  { title := "GPT-5 launches", url := "http://a", content := "big model news",
    source := "Hacker News", score := s, timestamp := 1735689600,
    comments_count := 2, native_id := some 1, summary := none }

/-- A record with no AI-related text. -/
def recChair (s : Int) : NewsRecord :=
  { title := "New chair design", url := "http://b", content := "furniture",
    source := "Product Hunt", score := s, timestamp := 0,
    comments_count := 0, native_id := some 2, summary := none }

/-- The record of the Japanese-boundary scenario: the vocabulary term
`'人工知能'` occurs in the title immediately followed by the hiragana
particle `'は'`, as in continuous Japanese prose. -/
def recJa (s : Int) : NewsRecord :=
  { title := "人工知能は進化する学習の話", url := "http://c", content := "",
    source := "Hacker News", score := s, timestamp := 0,
    comments_count := 0, native_id := some 3, summary := none }

/-- Product-launch post with a well-formed `created_at`. -/
def phGoodPost : PHPost :=
  { name := some "DevTool", discussion_url := some "https://ph.example/1",
    tagline := some "an ai assistant", votes_count := some 12,
    created_at := some "2025-01-02T10:00:00.000000Z",
    comments_count := some 3, id := some 11 }

/-- Product-launch post whose `created_at` makes `strptime` raise. -/
def phBadPost : PHPost :=
  { name := some "OtherTool", discussion_url := some "https://ph.example/2",
    tagline := some "a tool", votes_count := some 7,
    created_at := some "bad-date", comments_count := some 0, id := some 12 }

/-- Model: `strptime(...).timestamp()` succeeding exactly on the good date. -/
def phParseFixture : String → Except Unit Int := fun s =>
  if s = "2025-01-02T10:00:00.000000Z" then .ok 1735812000 else .error ()

/-- The record `phGoodPost` formats to. -/
def phGoodRecord : NewsRecord :=
  { title := "DevTool", url := "https://ph.example/1", content := "an ai assistant",
    source := "Product Hunt", score := 12, timestamp := 1735812000,
    comments_count := 3, native_id := some 11, summary := none }

/-- Tweet-info fixtures for the url dedup pass: `twA` and `twA2` share a
url, `twB` has its own. -/
def twA : TweetInfo :=
  { title := "first", url := "https://x.example/a", content := "first tweet",
    source := "Twitter", score := 3, timestamp := 10, comments_count := 0,
    twitter_id := 100, username := "u1", urls := ["https://x.example/a"] }

/-- Second fixture tweet, distinct url. -/
def twB : TweetInfo :=
  { title := "second", url := "https://x.example/b", content := "second tweet",
    source := "Twitter", score := 4, timestamp := 11, comments_count := 1,
    twitter_id := 101, username := "u2", urls := ["https://x.example/b"] }

/-- Third fixture tweet, repeating the url of `twA`. -/
def twA2 : TweetInfo :=
  { title := "third", url := "https://x.example/a", content := "third tweet",
    source := "Twitter", score := 5, timestamp := 12, comments_count := 2,
    twitter_id := 102, username := "u3", urls := ["https://x.example/a"] }

/-- A fixed output environment for the sink witnesses. -/
def envFixture : OutputEnv :=
  { output_dir := "output", timestamp := "20250102_120000",
    nowDateTime := "2025-01-02 12:00:00", nowDate := "2025-01-02",
    fmtTs := fun _ => "2025-01-02 11:00" }

/-! # Theorems -/

/-! ## Helper lemmas -/

/-- The `filter` loop is `List.filter` of the per-record predicate. -/
theorem aiFilterLoop_eq_filter (ms : Int) (l : List NewsRecord) :
    aiFilterLoop ms l = l.filter (passesFilter ms) := by
  induction l with
  | nil => rfl
  | cons r rest ih =>
    by_cases h : r.score < ms
    · simp [aiFilterLoop, h, ih, List.filter, passesFilter]
    · by_cases h2 : isAiRelated (combinedText r)
      · simp [aiFilterLoop, h, h2, ih, List.filter, passesFilter]
      · simp [aiFilterLoop, h, h2, ih, List.filter, passesFilter]

/-- Membership in the filter output. -/
theorem mem_aiFilter_iff (ms : Int) (X : List NewsRecord) (r : NewsRecord) :
    r ∈ aiFilter ms X ↔
      r ∈ X ∧ ms ≤ r.score ∧ isAiRelated (combinedText r) = true := by
  rw [aiFilter, aiFilterLoop_eq_filter, List.mem_filter, passesFilter]
  constructor
  · rintro ⟨hx, hp⟩
    rw [Bool.and_eq_true, Bool.not_eq_true', decide_eq_false_iff_not, Int.not_lt] at hp
    exact ⟨hx, hp.1, hp.2⟩
  · rintro ⟨hx, hs, ha⟩
    refine ⟨hx, ?_⟩
    rw [Bool.and_eq_true, Bool.not_eq_true', decide_eq_false_iff_not, Int.not_lt]
    exact ⟨hs, ha⟩

/-- A permutation of a list leaves `List.any` unchanged. -/
theorem any_eq_of_perm {α : Type} {l₁ l₂ : List α} (h : l₁.Perm l₂) (p : α → Bool) :
    l₁.any p = l₂.any p := by
  apply Bool.eq_iff_iff.mpr
  simp only [List.any_eq_true]
  exact ⟨fun ⟨x, hx, hp⟩ => ⟨x, h.mem_iff.mp hx, hp⟩,
         fun ⟨x, hx, hp⟩ => ⟨x, h.mem_iff.mpr hx, hp⟩⟩

/-- Inside a successful match, text positions agree with keyword positions. -/
theorem matchAt_getElem? {t k : List Char} {i : Nat} (h : matchAt t k i = true)
    {j : Nat} (hj : j < k.length) : t[i + j]? = k[j]? := by
  have he : (t.drop i).take k.length = k := by
    simpa [matchAt, decide_eq_true_eq] using h
  calc t[i + j]? = (t.drop i)[j]? := (List.getElem?_drop t i j).symm
    _ = ((t.drop i).take k.length)[j]? := (List.getElem?_take_of_lt hj).symm
    _ = k[j]? := by rw [he]

/-- A successful `\b<k>\b` search of a keyword whose first and last
characters are word characters exhibits an occurrence flanked by non-word
characters (or text edges) on both sides — so an occurrence lying strictly
inside a longer word never suffices. -/
theorem kwSearch_whole_word {k t : List Char} {c d : Char}
    (hhead : k.head? = some c) (hlast : k.getLast? = some d)
    (hc : isWordChar c = true) (hd : isWordChar d = true)
    (hsearch : kwSearch k t = true) :
    ∃ i, matchAt t k i = true ∧ (i = 0 ∨ wordAt t (i - 1) = false) ∧
      wordAt t (i + k.length) = false := by
  obtain ⟨i, _hi, hcond⟩ := List.any_eq_true.mp hsearch
  rw [Bool.and_eq_true, Bool.and_eq_true] at hcond
  obtain ⟨⟨hm, hb1⟩, hb2⟩ := hcond
  have hne : k ≠ [] := by
    intro h
    subst h
    simp at hhead
  have hlen : 0 < k.length := List.length_pos.mpr hne
  have h0 : t[i]? = some c := by
    have h00 := matchAt_getElem? hm hlen
    rw [Nat.add_zero] at h00
    rw [h00, ← List.head?_eq_getElem?, hhead]
  have hw0 : wordAt t i = true := by simp [wordAt, h0, hc]
  have hbleft : i = 0 ∨ wordAt t (i - 1) = false := by
    simp only [boundaryAt, hw0] at hb1
    by_cases hi0 : i = 0
    · exact Or.inl hi0
    · simp [hi0] at hb1
      exact Or.inr hb1
  have hl : t[i + k.length - 1]? = some d := by
    have hjlt : k.length - 1 < k.length := by omega
    have hl0 := matchAt_getElem? hm hjlt
    have harith : i + (k.length - 1) = i + k.length - 1 := by omega
    rw [harith] at hl0
    rw [hl0, ← List.getLast?_eq_getElem?, hlast]
  have hwl : wordAt t (i + k.length - 1) = true := by simp [wordAt, hl, hd]
  have hbright : wordAt t (i + k.length) = false := by
    have hnz : ¬(i + k.length = 0) := by omega
    simp only [boundaryAt, hnz, if_false, hwl] at hb2
    simpa using hb2
  exact ⟨i, hm, hbleft, hbright⟩

/-! ## Claim theorems -/

/-- C3: for every minimum score and record list, `filter(filter(X)) =
filter(X)`, `filter(X)` is a subsequence of `X` (relative order preserved,
nothing reordered), and every output record is an input record (no record
is mutated).  Determinism is immediate since the embedding is a function of
its input. -/
theorem c3_filter_idempotent_subseq :
    ∀ (ms : Int) (X : List NewsRecord),
      aiFilter ms (aiFilter ms X) = aiFilter ms X ∧
      (aiFilter ms X).Sublist X ∧
      ∀ r ∈ aiFilter ms X, r ∈ X := by
  intro ms X
  have hf : ∀ Y : List NewsRecord, aiFilter ms Y = Y.filter (passesFilter ms) :=
    fun Y => aiFilterLoop_eq_filter ms Y
  simp only [hf]
  refine ⟨?_, List.filter_sublist _, fun r hr => (List.filter_sublist _).subset hr⟩
  rw [List.filter_filter]
  simp

/-- C3 witness: the idempotence and subset facts at a concrete input
containing one passing and one failing record. -/
theorem c3_filter_idempotent_subseq_witness :
    aiFilter 5 (aiFilter 5 [recGpt 50, recChair 50]) =
      aiFilter 5 [recGpt 50, recChair 50] ∧
    (aiFilter 5 [recGpt 50, recChair 50]).Sublist [recGpt 50, recChair 50] ∧
    recGpt 50 ∈ [recGpt 50, recChair 50] :=
  ⟨(c3_filter_idempotent_subseq 5 [recGpt 50, recChair 50]).1,
   (c3_filter_idempotent_subseq 5 [recGpt 50, recChair 50]).2.1,
   (c3_filter_idempotent_subseq 5 [recGpt 50, recChair 50]).2.2 (recGpt 50)
     (by rw [mem_aiFilter_iff]; exact ⟨by simp, by decide, by decide⟩)⟩

/-- C4: the keyword test is whole-word — a successful search of a
word-charactered vocabulary term always comes from an occurrence flanked by
non-word characters or text edges, so a term occurring only inside an
unrelated longer word never matches; a record is in the filter output iff
it is an input record clearing the score floor whose lower-cased
title-and-content text matches at least one vocabulary term; and permuting
the vocabulary list never changes the match verdict. -/
theorem c4_whole_word_filter :
    (∀ (k t : List Char) (c d : Char), k.head? = some c → k.getLast? = some d →
        isWordChar c = true → isWordChar d = true → kwSearch k t = true →
        ∃ i, matchAt t k i = true ∧ (i = 0 ∨ wordAt t (i - 1) = false) ∧
          wordAt t (i + k.length) = false) ∧
    (∀ (ms : Int) (X : List NewsRecord) (r : NewsRecord),
        r ∈ aiFilter ms X ↔
          r ∈ X ∧ ms ≤ r.score ∧ isAiRelated (combinedText r) = true) ∧
    (∀ (kws : List String) (t : List Char), kws.Perm AI_KEYWORDS →
        isAiRelatedWith kws t = isAiRelated t) :=
  ⟨fun _ _ _ _ hh hl hc hd hs => kwSearch_whole_word hh hl hc hd hs,
   mem_aiFilter_iff,
   fun _ _ hperm => any_eq_of_perm hperm _⟩

/-- C4 witness: the whole-word conclusion for the term `"ai"` in a text
where it occurs as its own word, the membership characterization and the
vocabulary-permutation invariance at concrete inputs. -/
theorem c4_whole_word_filter_witness :
    (∃ i, matchAt "my ai rocks".toList "ai".toList i = true ∧
        (i = 0 ∨ wordAt "my ai rocks".toList (i - 1) = false) ∧
        wordAt "my ai rocks".toList (i + ("ai".toList).length) = false) ∧
    (recGpt 50 ∈ aiFilter 5 [recGpt 50] ↔
      recGpt 50 ∈ [recGpt 50] ∧ 5 ≤ (recGpt 50).score ∧
        isAiRelated (combinedText (recGpt 50)) = true) ∧
    isAiRelatedWith AI_KEYWORDS.reverse (combinedText (recGpt 50)) =
      isAiRelated (combinedText (recGpt 50)) :=
  ⟨c4_whole_word_filter.1 "ai".toList "my ai rocks".toList 'a' 'i'
     (by decide) (by decide) (by decide) (by decide) (by decide),
   c4_whole_word_filter.2.1 5 [recGpt 50] (recGpt 50),
   c4_whole_word_filter.2.2 AI_KEYWORDS.reverse (combinedText (recGpt 50))
     (List.reverse_perm _)⟩

/-- C9: a record whose score is `min_score - 1` is never in the filter
output, whatever its text; a record whose score is exactly `min_score` and
whose text matches a vocabulary term is kept. -/
theorem c9_score_floor :
    ∀ (ms : Int) (X : List NewsRecord) (r : NewsRecord),
      (r.score = ms - 1 → r ∉ aiFilter ms X) ∧
      (r.score = ms → isAiRelated (combinedText r) = true → r ∈ X →
        r ∈ aiFilter ms X) := by
  intro ms X r
  constructor
  · intro hs hmem
    rw [mem_aiFilter_iff] at hmem
    have := hmem.2.1
    omega
  · intro hs ha hx
    rw [mem_aiFilter_iff]
    exact ⟨hx, by omega, ha⟩

/-- C9 witness: with the default floor 5, a matching record of score 4
is excluded and a matching record of score 5 is included. -/
theorem c9_score_floor_witness :
    recGpt 4 ∉ aiFilter 5 [recGpt 4] ∧ recGpt 5 ∈ aiFilter 5 [recGpt 5] :=
  ⟨(c9_score_floor 5 [recGpt 4] (recGpt 4)).1 (by decide),
   (c9_score_floor 5 [recGpt 5] (recGpt 5)).2 (by decide) (by decide) (by simp)⟩

/-- C10: the Japanese vocabulary term `'人工知能'`, wrapped in `\b`
anchors like every other term, fails to match when it is immediately
followed by a hiragana particle (both sides of the gap are word characters
for Python's Unicode `\b`), no other term matches that text either, and the
record is excluded by the filter even though its score clears the floor. -/
theorem c10_japanese_boundary :
    ∀ s : Int, 5 ≤ s →
      kwSearch "人工知能".toList (combinedText (recJa s)) = false ∧
      isAiRelated (combinedText (recJa s)) = false ∧
      aiFilter 5 [recJa s] = [] := by
  intro s _hs
  have hct : combinedText (recJa s) =
      lowerChars ("人工知能は進化する学習の話" ++ " " ++ "") := rfl
  have hai : isAiRelated (combinedText (recJa s)) = false := by
    rw [hct]
    decide
  refine ⟨?_, hai, ?_⟩
  · rw [hct]
    decide
  · rw [aiFilter, aiFilterLoop_eq_filter]
    simp [List.filter, passesFilter, hai]

/-- C10 witness: the exclusion at score 100. -/
theorem c10_japanese_boundary_witness :
    kwSearch "人工知能".toList (combinedText (recJa 100)) = false ∧
    isAiRelated (combinedText (recJa 100)) = false ∧
    aiFilter 5 [recJa 100] = [] :=
  c10_japanese_boundary 100 (by decide)

/-- The summarizer loop preserves length. -/
theorem summarizeLoop_length (callApi : Nat → Option String) (i : Nat)
    (l : List NewsRecord) : (summarizeLoop callApi i l).length = l.length := by
  induction l generalizing i with
  | nil => rfl
  | cons a rest ih => simp [summarizeLoop, ih]

/-- Element `j` of the summarizer loop output is determined by element `j`
of the input and the API result for index `i + j` alone. -/
theorem summarizeLoop_getElem? (callApi : Nat → Option String) (i j : Nat)
    (l : List NewsRecord) :
    (summarizeLoop callApi i l)[j]? = (l[j]?).map fun item =>
      match callApi (i + j) with
      | some content => { item with summary := some (pyStrip content) }
      | none => item := by
  induction l generalizing i j with
  | nil => simp [summarizeLoop]
  | cons a rest ih =>
    cases j with
    | zero => simp [summarizeLoop]
    | succ j' =>
      have harith : i + 1 + j' = i + (j' + 1) := by omega
      simp only [summarizeLoop, List.getElem?_cons_succ, ih (i + 1) j', harith]

/-- C2 (amended): `summarize` preserves length and order; the element at
each position is the corresponding input element unchanged — in particular
whenever the per-item call failed, and whenever no API key is configured —
or that input element with only a summary added, the summary being the
stripped response content (possibly empty when the response was only
whitespace). -/
theorem c2_summarize_order_length :
    ∀ (api_key : String) (callApi : Nat → Option String) (X : List NewsRecord),
      (summarize api_key callApi X).length = X.length ∧
      ∀ (i : Nat) (item : NewsRecord), X[i]? = some item →
        (api_key = "" → (summarize api_key callApi X)[i]? = some item) ∧
        (callApi i = none → (summarize api_key callApi X)[i]? = some item) ∧
        ((summarize api_key callApi X)[i]? = some item ∨
          ∃ content, callApi i = some content ∧
            (summarize api_key callApi X)[i]? =
              some { item with summary := some (pyStrip content) }) := by
  intro api_key callApi X
  by_cases hkey : api_key = ""
  · refine ⟨by simp [summarize, hkey], fun i item hi => ⟨fun _ => ?_, fun _ => ?_, Or.inl ?_⟩⟩
      <;> simp [summarize, hkey, hi]
  · have hget : ∀ (i : Nat), (summarize api_key callApi X)[i]? = (X[i]?).map fun item =>
        match callApi i with
        | some content => { item with summary := some (pyStrip content) }
        | none => item := by
      intro i
      have h0 := summarizeLoop_getElem? callApi 0 i X
      rw [Nat.zero_add] at h0
      simp [summarize, hkey, h0]
    refine ⟨?_, fun i item hi => ⟨fun h => absurd h hkey, fun hnone => ?_, ?_⟩⟩
    · simp [summarize, hkey, summarizeLoop_length]
    · rw [hget i, hi, hnone]
      rfl
    · cases hapi : callApi i with
      | none =>
        refine Or.inl ?_
        rw [hget i, hi, hapi]
        rfl
      | some content =>
        refine Or.inr ⟨content, rfl, ?_⟩
        rw [hget i, hi, hapi]
        rfl

/-- C2 witness: at a two-element input where the call for index 0
succeeds and the call for index 1 fails, element 0 gains the stripped
summary and element 1 is the untouched original. -/
theorem c2_summarize_order_length_witness :
    (summarize "key" (fun i => if i = 0 then some " 新製品の要約 " else none)
        [recGpt 50, recChair 50]).length = 2 ∧
    (summarize "key" (fun i => if i = 0 then some " 新製品の要約 " else none)
        [recGpt 50, recChair 50])[1]? = some (recChair 50) ∧
    ((summarize "key" (fun i => if i = 0 then some " 新製品の要約 " else none)
        [recGpt 50, recChair 50])[0]? = some (recGpt 50) ∨
      ∃ content, (fun i => if i = 0 then some " 新製品の要約 " else none) 0 = some content ∧
        (summarize "key" (fun i => if i = 0 then some " 新製品の要約 " else none)
            [recGpt 50, recChair 50])[0]? =
          some { recGpt 50 with summary := some (pyStrip content) }) :=
  ⟨(c2_summarize_order_length "key" _ [recGpt 50, recChair 50]).1,
   ((c2_summarize_order_length "key" _ [recGpt 50, recChair 50]).2 1 (recChair 50)
      (by decide)).2.1 (by decide),
   ((c2_summarize_order_length "key" _ [recGpt 50, recChair 50]).2 0 (recGpt 50)
      (by decide)).2.2⟩

/-- C2 counterexample: with a configured key and a capability call that
returns whitespace-only content, the first output element is neither the
input unchanged nor the input with a *non-empty* summary — the code attaches
the stripped, hence empty, summary. -/
theorem c2_nonempty_summary_counterexample :
    ¬((summarize "key" (fun _ => some " ") [recGpt 50])[0]? = some (recGpt 50) ∨
      ∃ content, content ≠ "" ∧
        (summarize "key" (fun _ => some " ") [recGpt 50])[0]? =
          some { recGpt 50 with summary := some content }) := by
  have hout : (summarize "key" (fun _ => some " ") [recGpt 50])[0]? =
      some { recGpt 50 with summary := some "" } := by decide
  rintro (h | ⟨content, hne, h⟩)
  · rw [hout] at h
    have h2 := congrArg (fun o => (Option.map NewsRecord.summary o)) h
    simp [recGpt] at h2
  · rw [hout] at h
    have h2 := congrArg (fun o => (Option.map NewsRecord.summary o)) h
    simp [recGpt] at h2
    exact hne h2.symm

/-- The dedup loop output is a sublist of its input. -/
theorem dedupByUrlAux_sublist :
    ∀ (l : List TweetInfo) (seen : List String), (dedupByUrlAux l seen).Sublist l := by
  intro l
  induction l with
  | nil => intro seen; simp [dedupByUrlAux]
  | cons t rest ih =>
    intro seen
    simp only [dedupByUrlAux]
    split
    · exact (ih seen).cons t
    · exact (ih (t.url :: seen)).cons₂ t

/-- Counting records by url in the dedup loop output: zero when the url was
already seen, else one iff some input record carries it. -/
theorem dedupByUrlAux_countP (u : String) :
    ∀ (l : List TweetInfo) (seen : List String),
      (dedupByUrlAux l seen).countP (fun ti => ti.url == u) =
        if u ∈ seen then 0
        else if l.any (fun ti => ti.url == u) then 1 else 0 := by
  intro l
  induction l with
  | nil =>
    intro seen
    simp [dedupByUrlAux]
  | cons t rest ih =>
    intro seen
    simp only [dedupByUrlAux]
    by_cases hseen : t.url ∈ seen
    · rw [if_pos hseen, ih]
      by_cases hu : u ∈ seen
      · simp [hu]
      · have hne : (t.url == u) = false := by
          apply beq_false_of_ne
          intro he
          exact hu (he ▸ hseen)
        simp [hu, List.any_cons, hne]
    · rw [if_neg hseen, List.countP_cons, ih]
      by_cases htu : t.url = u
      · subst htu
        simp [hseen, List.any_cons]
      · have hne : (t.url == u) = false := beq_false_of_ne htu
        have hmem : (u ∈ t.url :: seen) ↔ u ∈ seen := by
          simp [List.mem_cons]
          intro he
          exact absurd he.symm htu
        by_cases hu : u ∈ seen
        · simp [hne, hmem, hu]
        · simp [hne, hmem, hu, List.any_cons]

/-- Every record kept by the dedup loop carries a url not yet seen, and is
the first input record with its url. -/
theorem dedupByUrlAux_first_seen :
    ∀ (l : List TweetInfo) (seen : List String) (r : TweetInfo),
      r ∈ dedupByUrlAux l seen →
        r.url ∉ seen ∧ l.find? (fun ti => ti.url == r.url) = some r := by
  intro l
  induction l with
  | nil =>
    intro seen r hr
    simp [dedupByUrlAux] at hr
  | cons t rest ih =>
    intro seen r hr
    simp only [dedupByUrlAux] at hr
    by_cases hseen : t.url ∈ seen
    · rw [if_pos hseen] at hr
      obtain ⟨hnot, hfind⟩ := ih seen r hr
      have hne : (t.url == r.url) = false := by
        apply beq_false_of_ne
        intro he
        exact hnot (he ▸ hseen)
      exact ⟨hnot, by rw [List.find?_cons_of_neg _ (by simp [hne]), hfind]⟩
    · rw [if_neg hseen] at hr
      rcases List.mem_cons.mp hr with hr | hr
      · subst hr
        exact ⟨hseen, List.find?_cons_of_pos _ (by simp)⟩
      · obtain ⟨hnot, hfind⟩ := ih (t.url :: seen) r hr
        have hne2 : ¬(t.url = r.url) := by
          intro he
          exact hnot (by simp [he])
        have hnotseen : r.url ∉ seen := fun hin => hnot (List.mem_cons_of_mem _ hin)
        refine ⟨hnotseen, ?_⟩
        rw [List.find?_cons_of_neg _ (by simp [hne2]), hfind]

/-- C5: the final dedup pass of the social-stream collector keeps a
subsequence of its input (first-seen relative order), contains exactly one
record per url that occurs in the input and none for a url that does not,
and each kept record is the first input record carrying its url. -/
theorem c5_dedup_by_url :
    ∀ l : List TweetInfo,
      (dedupByUrl l).Sublist l ∧
      (∀ u : String, (dedupByUrl l).countP (fun ti => ti.url == u) =
        if l.any (fun ti => ti.url == u) then 1 else 0) ∧
      ∀ r ∈ dedupByUrl l, l.find? (fun ti => ti.url == r.url) = some r := by
  intro l
  refine ⟨dedupByUrlAux_sublist l [], fun u => ?_, fun r hr => ?_⟩
  · rw [dedupByUrl, dedupByUrlAux_countP]
    simp
  · exact (dedupByUrlAux_first_seen l [] r hr).2

/-- C5 witness: on `[twA, twB, twA2]`, where `twA2` repeats the url of
`twA`, the shared url is kept once and its representative is the first-seen
record `twA`. -/
theorem c5_dedup_by_url_witness :
    (dedupByUrl [twA, twB, twA2]).Sublist [twA, twB, twA2] ∧
    (dedupByUrl [twA, twB, twA2]).countP
      (fun ti => ti.url == "https://x.example/a") = 1 ∧
    [twA, twB, twA2].find? (fun ti => ti.url == twA.url) = some twA := by
  refine ⟨(c5_dedup_by_url [twA, twB, twA2]).1, ?_, ?_⟩
  · rw [(c5_dedup_by_url [twA, twB, twA2]).2.1 "https://x.example/a"]
    decide
  · exact (c5_dedup_by_url [twA, twB, twA2]).2.2 twA (by decide)

/-- The numbered-block loop of `_save_text` emits one block per record. -/
theorem textBlocksFrom_length (idx : Nat) (l : List NewsRecord) :
    (textBlocksFrom idx l).length = l.length := by
  induction l generalizing idx with
  | nil => rfl
  | cons r rest ih => simp [textBlocksFrom, ih]

/-- A path produced by `savePath` is never the empty string. -/
theorem savePath_ne_empty (d t e : String) : savePath d t e ≠ "" := by
  intro h
  have h2 := congrArg String.length h
  rw [savePath] at h2
  simp only [String.length_append] at h2
  have e1 : ("/ai_news_" : String).length = 9 := rfl
  have e2 : ("." : String).length = 1 := rfl
  have e3 : ("" : String).length = 0 := rfl
  omega

/-- C7: on a non-empty record list, `save` writes exactly four files —
the full-fidelity json, the csv table, the plain-text digest and the html
report — each containing exactly `len(X)` records, all four paths built
from the same run timestamp, and returns the json path, which is non-empty.
-/
theorem c7_save_output_completeness :
    ∀ (env : OutputEnv) (X : List NewsRecord), X ≠ [] →
      (save env X).2.1.length = 4 ∧
      (∀ f ∈ (save env X).2.1, recordCount f.2 = X.length) ∧
      (save env X).2.1.map Prod.fst =
        [savePath env.output_dir env.timestamp "json",
         savePath env.output_dir env.timestamp "csv",
         savePath env.output_dir env.timestamp "txt",
         savePath env.output_dir env.timestamp "html"] ∧
      (save env X).1 = savePath env.output_dir env.timestamp "json" ∧
      (save env X).1 ≠ "" := by
  intro env X hX
  have hne : X.isEmpty = false := by
    cases X with
    | nil => exact absurd rfl hX
    | cons a l => rfl
  have hsave : save env X =
      (savePath env.output_dir env.timestamp "json",
       [saveJsonFile env X, saveCsvFile env X, saveTextFile env X, saveHtmlFile env X],
       [(.info, "ニュース要約結果を以下のファイルに保存しました: " ++
          String.intercalate ", "
            [(saveJsonFile env X).1, (saveCsvFile env X).1,
             (saveTextFile env X).1, (saveHtmlFile env X).1])]) := by
    rw [save, hne]
    rfl
  rw [hsave]
  refine ⟨rfl, ?_, rfl, rfl, savePath_ne_empty _ _ _⟩
  intro f hf
  simp only [List.mem_cons, List.not_mem_nil, or_false] at hf
  rcases hf with h | h | h | h <;> subst h
  · rfl
  · simp [saveCsvFile, recordCount]
  · simp [saveTextFile, recordCount, textBlocksFrom_length]
  · simp [saveHtmlFile, recordCount]

/-- C7 witness: two records through a fixed environment. -/
theorem c7_save_output_completeness_witness :
    (save envFixture [recGpt 50, recChair 50]).2.1.length = 4 ∧
    (∀ f ∈ (save envFixture [recGpt 50, recChair 50]).2.1, recordCount f.2 = 2) ∧
    (save envFixture [recGpt 50, recChair 50]).1 =
      savePath envFixture.output_dir envFixture.timestamp "json" ∧
    (save envFixture [recGpt 50, recChair 50]).1 ≠ "" :=
  ⟨(c7_save_output_completeness envFixture [recGpt 50, recChair 50] (by simp)).1,
   (c7_save_output_completeness envFixture [recGpt 50, recChair 50] (by simp)).2.1,
   (c7_save_output_completeness envFixture [recGpt 50, recChair 50] (by simp)).2.2.2.1,
   (c7_save_output_completeness envFixture [recGpt 50, recChair 50] (by simp)).2.2.2.2⟩

/-- C8: on the empty record list, `save` returns the empty path, writes
no file, and only emits a warning (not an error); being a total function of
its input, it raises nothing. -/
theorem c8_save_empty :
    ∀ env : OutputEnv,
      save env [] =
        ("", [], [(LogLevel.warning, "保存するニュースアイテムがありません")]) :=
  fun _ => rfl

/-- The forum-ranking per-item loop distributes over append. -/
theorem hnLoop_append (fetchItem : Int → Except Unit (Option HNItem))
    (l₁ l₂ : List Int) :
    hnLoop fetchItem (l₁ ++ l₂) = hnLoop fetchItem l₁ ++ hnLoop fetchItem l₂ := by
  induction l₁ with
  | nil => rfl
  | cons id rest ih =>
    simp only [List.cons_append, hnLoop]
    cases hnProcess fetchItem id <;> simp [ih]

/-- A failing detail fetch contributes no record. -/
theorem hnProcess_error (fetchItem : Int → Except Unit (Option HNItem))
    (story_id : Int) (h : fetchItem story_id = .error ()) :
    hnProcess fetchItem story_id = none := by
  rw [hnProcess, h]

/-- A failing keyword search leaves the accumulator unchanged. -/
theorem twKeywordStep_error (search : String → Except Unit (List Tweet))
    (acc : List TweetInfo) (kw : String) (h : search kw = .error ()) :
    twKeywordStep search acc kw = acc := by
  rw [twKeywordStep, h]

/-- C1 (amended): per-item fault isolation holds for the forum-ranking
variant (a story whose detail fetch fails is skipped and the remaining
stories are processed exactly as if it were absent) and, at keyword-search
granularity, for the social-stream variant (a failing search term leaves
the accumulated set untouched and the remaining terms proceed); in the
product-launch variant, however, a single item whose `created_at` fails to
parse aborts the whole collection, which returns the empty list. -/
theorem c1_per_item_isolation :
    (∀ (fetchItem : Int → Except Unit (Option HNItem)) (pre post : List Int)
        (bad : Int), fetchItem bad = .error () →
      hnLoop fetchItem (pre ++ bad :: post) =
        hnLoop fetchItem pre ++ hnLoop fetchItem post) ∧
    (∀ (search : String → Except Unit (List Tweet)) (acc : List TweetInfo)
        (pre post : List String) (bad : String), search bad = .error () →
      (pre ++ bad :: post).foldl (twKeywordStep search) acc =
        (pre ++ post).foldl (twKeywordStep search) acc) ∧
    (∀ (api_key : String) (days_back : Nat)
        (getPosts : Nat → Except Unit (List PHPost))
        (parseCreatedAt : String → Except Unit Int) (posts : List PHPost),
      phGatherFrom getPosts 0 days_back = .ok posts →
      posts.mapM (phBuildItem parseCreatedAt) = .error () →
      phCollect api_key days_back getPosts parseCreatedAt = []) := by
  refine ⟨?_, ?_, ?_⟩
  · intro fetchItem pre post bad hbad
    rw [hnLoop_append]
    simp only [hnLoop, hnProcess_error fetchItem bad hbad]
  · intro search acc pre post bad hbad
    rw [List.foldl_append, List.foldl_append]
    simp only [List.foldl_cons, twKeywordStep_error search _ bad hbad]
  · intro api_key days_back getPosts parseCreatedAt posts hgather hbuild
    rw [phCollect]
    by_cases hkey : api_key = ""
    · rw [if_pos hkey]
    · rw [if_neg hkey, hgather]
      show (match posts.mapM (phBuildItem parseCreatedAt) with
            | Except.error _ => ([] : List NewsRecord)
            | Except.ok news_items => news_items) = []
      rw [hbuild]

/-- C1 witness: concrete instances — a forum-ranking run in which the
fetch of story 2 fails still yields the records of stories 1 and 3, and a
social-stream fold in which one term's search fails equals the fold without
that term. -/
theorem c1_per_item_isolation_witness :
    hnLoop
        (fun i => if i = 2 then .error () else
          .ok (some { title := some "T", url := some "http://hn/x",
                      text := some "", itemType := some "story",
                      score := some 10, time := some 1, descendants := some 0 }))
        ([1] ++ 2 :: [3]) =
      hnLoop
        (fun i => if i = 2 then .error () else
          .ok (some { title := some "T", url := some "http://hn/x",
                      text := some "", itemType := some "story",
                      score := some 10, time := some 1, descendants := some 0 }))
        [1] ++
      hnLoop
        (fun i => if i = 2 then .error () else
          .ok (some { title := some "T", url := some "http://hn/x",
                      text := some "", itemType := some "story",
                      score := some 10, time := some 1, descendants := some 0 }))
        [3] ∧
    (["#AI"] ++ "GPT" :: ["#ML"]).foldl
        (twKeywordStep (fun kw => if kw = "GPT" then .error () else .ok [])) [] =
      (["#AI"] ++ ["#ML"]).foldl
        (twKeywordStep (fun kw => if kw = "GPT" then .error () else .ok [])) [] :=
  ⟨c1_per_item_isolation.1 _ [1] [3] 2 rfl,
   c1_per_item_isolation.2.1 _ [] ["#AI"] ["#ML"] "GPT" (by simp)⟩

/-- C1 counterexample: the product-launch variant does not isolate a
single-item parse failure — with a batch of one good and one bad post,
`collect` returns `[]` and the good post's record (which the same run
produces when the bad post is absent) is lost. -/
theorem c1_per_item_isolation_counterexample :
    phCollect "key" 1 (fun _ => .ok [phGoodPost, phBadPost]) phParseFixture = [] ∧
    phCollect "key" 1 (fun _ => .ok [phGoodPost]) phParseFixture = [phGoodRecord] := by
  constructor
  · rfl
  · rfl

/-- C6: every provider-level failure branch at the top of `collect()` —
a failing story-id fetch (either list) for the forum-ranking variant, a
missing API key for the product-launch variant, any missing credential or a
failing `verify_credentials` for the social-stream variant — yields the
empty sequence; each `collect` embedding is a total function, so no error
escapes to the caller. -/
theorem c6_collect_provider_failure :
    (∀ (fetchNew : Except Unit (List Int))
        (fetchItem : Int → Except Unit (Option HNItem)) (m : Nat),
      hnCollect (.error ()) fetchNew fetchItem m = []) ∧
    (∀ (top_ids : List Int) (fetchItem : Int → Except Unit (Option HNItem))
        (m : Nat), hnCollect (.ok top_ids) (.error ()) fetchItem m = []) ∧
    (∀ (days_back : Nat) (getPosts : Nat → Except Unit (List PHPost))
        (parseCreatedAt : String → Except Unit Int),
      phCollect "" days_back getPosts parseCreatedAt = []) ∧
    (∀ (s t a : String) (v : Except Unit Unit)
        (search : String → Except Unit (List Tweet)),
      twCollect "" s t a v search = []) ∧
    (∀ (k t a : String) (v : Except Unit Unit)
        (search : String → Except Unit (List Tweet)),
      twCollect k "" t a v search = []) ∧
    (∀ (k s a : String) (v : Except Unit Unit)
        (search : String → Except Unit (List Tweet)),
      twCollect k s "" a v search = []) ∧
    (∀ (k s t : String) (v : Except Unit Unit)
        (search : String → Except Unit (List Tweet)),
      twCollect k s t "" v search = []) ∧
    (∀ (k s t a : String) (search : String → Except Unit (List Tweet)),
      twCollect k s t a (.error ()) search = []) := by
  refine ⟨fun _ _ _ => rfl, fun _ _ _ => rfl, fun _ _ _ => rfl,
          fun _ _ _ _ _ => by simp [twCollect],
          fun _ _ _ _ _ => by simp [twCollect],
          fun _ _ _ _ _ => by simp [twCollect],
          fun _ _ _ _ _ => by simp [twCollect],
          fun k s t a search => ?_⟩
  rw [twCollect]
  split
  · rfl
  · rfl

end AINews
